import Mathlib

/-!
Verification of the travel-assistant MCP server core
(`travel_assistant/helpers.py`, `clients.py`, `server.py`).

The Python data passed around by the server is JSON-like: `JVal` embeds it.
Python dicts are embedded as association lists in insertion order, with
`dictLookup` / `dictSet` mirroring `d[k]` / `d[k] = v` semantics
(update-in-place keeps the original position, fresh keys append).
Fallible code returns `Except String` where the source can raise.
Wall-clock timestamps and network I/O are modelled as explicit parameters:
a function that performs an HTTP request takes the outcome of that request
(parsed payload or transport exception text) as an argument, and a
validation layer that either short-circuits or reaches the SDK returns an
`SdkStep` saying which happened.
-/

namespace TravelAssistant

/-- Python-like JSON value, as exchanged with the travel APIs. -/
inductive JVal where
  | none
  | bool (b : Bool)
  | int (n : Int)
  | str (s : String)
  | list (xs : List JVal)
  | dict (entries : List (String × JVal))

mutual

/-- Python `repr` of a value (quoting simplified to ASCII single quotes;
the claims below never depend on the exact rendering of nested values). -/
def pyRepr : JVal → String
  | JVal.str s => "\x27" ++ s ++ "\x27"
  | JVal.none => "None"
  | JVal.bool true => "True"
  | JVal.bool false => "False"
  | JVal.int n => toString n
  | JVal.list xs => "[" ++ String.intercalate ", " (pyReprList xs) ++ "]"
  | JVal.dict es => "\x7b" ++ String.intercalate ", " (pyReprEntries es) ++ "\x7d"

/-- Helper of `pyRepr` for the elements of a list value. -/
def pyReprList : List JVal → List String
  | [] => []
  | x :: xs => pyRepr x :: pyReprList xs

/-- Helper of `pyRepr` for the entries of a dict value. -/
def pyReprEntries : List (String × JVal) → List String
  | [] => []
  | (k, v) :: es => (pyRepr (JVal.str k) ++ ": " ++ pyRepr v) :: pyReprEntries es

end

/-- Python `str` of a value: identity on strings, `repr` otherwise. -/
def pyStr : JVal → String
  | JVal.str s => s
  | v => pyRepr v

/-- Python truthiness of a value. -/
def truthy : JVal → Bool
  | JVal.none => false
  | JVal.bool b => b
  | JVal.int n => !(n == 0)
  | JVal.str s => !s.isEmpty
  | JVal.list xs => !xs.isEmpty
  | JVal.dict es => !es.isEmpty

/-- Python `value is None`. -/
def isNoneVal : JVal → Bool
  | JVal.none => true
  | _ => false

/-- Python `v == n` for an integer literal `n` (booleans compare as 0/1;
values of other types never equal an integer). -/
def pyEqInt : JVal → Int → Bool
  | JVal.int m, n => decide (m = n)
  | JVal.bool b, n => decide ((if b then (1 : Int) else 0) = n)
  | _, _ => false

/-- Python dict lookup `d[k]` (first matching entry). -/
def dictLookup (d : List (String × JVal)) (k : String) : Option JVal :=
  match d with
  | [] => Option.none
  | (k0, v) :: rest => if k0 = k then some v else dictLookup rest k

/-- Python `d.get(k, default)`. -/
def dictGetD (d : List (String × JVal)) (k : String) (default : JVal) : JVal :=
  match dictLookup d k with
  | some v => v
  | Option.none => default

/-- Python `d[k] = v`: update the existing entry in place, else append. -/
def dictSet (d : List (String × JVal)) (k : String) (v : JVal) : List (String × JVal) :=
  if (dictLookup d k).isSome then
    d.map (fun p => if p.1 = k then (k, v) else p)
  else
    d ++ [(k, v)]

/-- Python iteration `for x in v`: lists yield their elements, strings their
characters, dicts their keys; other values raise `TypeError`. -/
def pyIter : JVal → Except String (List JVal)
  | JVal.list xs => Except.ok xs
  | JVal.str s => Except.ok (s.toList.map (fun c => JVal.str (String.singleton c)))
  | JVal.dict es => Except.ok (es.map (fun p => JVal.str p.1))
  | _ => Except.error "TypeError: object is not iterable"

/-- Source: `helpers.build_optional_params`. Starts from a copy of
`required_params`, then adds each optional entry when it passes the
field policy: fields in `none_check_fields` are added unless `None`,
all other fields are added when truthy. -/
def build_optional_params (required_params optional_params : List (String × JVal))
    (none_check_fields : List String) : List (String × JVal) :=
  optional_params.foldl
    (fun params kv =>
      if kv.1 ∈ none_check_fields then
        if isNoneVal kv.2 then params else dictSet params kv.1 kv.2
      else
        if truthy kv.2 then dictSet params kv.1 kv.2 else params)
    required_params

/-- Result record of `helpers.extract_hotel_accessibility`. -/
structure SerpHotelAccessibility where
  wheelchair_accessible : Bool
  accessible_room_available : Bool
  wheelchair_amenity_id : Int
  amenities : JVal

/-- Python `isinstance(a, dict) and "id" in a`. -/
def isDictWithKey (a : JVal) (k : String) : Bool :=
  match a with
  | JVal.dict es => (dictLookup es k).isSome
  | _ => false

/-- Python `a.get(k)` on a value known to be a dict containing `k`. -/
def dictKeyVal (a : JVal) (k : String) : JVal :=
  match a with
  | JVal.dict es => (dictLookup es k).getD JVal.none
  | _ => JVal.none

/-- Source: `helpers.extract_hotel_accessibility`. Collects the `id` of every
amenity entry that is a dict with an `"id"` key, and reports wheelchair
accessibility when 53 is among them. Iterating a non-iterable `amenities`
value raises, which surfaces as `Except.error`. -/
def extract_hotel_accessibility (hotel_property : List (String × JVal)) :
    Except String SerpHotelAccessibility :=
  let amenities := dictGetD hotel_property "amenities" (JVal.list [])
  match pyIter amenities with
  | Except.error e => Except.error e
  | Except.ok elems =>
    let amenity_ids := (elems.filter (fun a => isDictWithKey a "id")).map
      (fun a => dictKeyVal a "id")
    let wheelchair_accessible := amenity_ids.any (fun v => pyEqInt v 53)
    Except.ok
      { wheelchair_accessible := wheelchair_accessible
        accessible_room_available := wheelchair_accessible
        wheelchair_amenity_id := 53
        amenities := amenities }

/-- Result record of `helpers.extract_amadeus_hotel_accessibility`. -/
structure AmadeusHotelAccessibility where
  wheelchair_accessible : Bool
  accessible_room_available : Bool
  facility_list : List JVal

/-- Fixed keyword set of `helpers.extract_amadeus_hotel_accessibility`. -/
def accessibility_keywords : List String :=
  ["wheelchair", "accessible", "mobility", "elevator", "ramp", "parking", "bathroom"]

/-- Python `facility.get("description", str(facility))` for dict entries,
`str(facility)` for any other entry. -/
def facilityEntryDesc (f : JVal) : JVal :=
  match f with
  | JVal.dict es => (dictLookup es "description").getD (JVal.str (pyStr (JVal.dict es)))
  | v => JVal.str (pyStr v)

/-- Python `pat in s` (substring containment). -/
def strContains (s pat : String) : Bool :=
  decide (pat.toList <:+: s.toList)

/-- Source: `helpers.extract_amadeus_hotel_accessibility`. Builds the facility
description list from a truthy `facilities` value and flags accessibility
when any keyword occurs case-insensitively in the string form of any
facility description. -/
def extract_amadeus_hotel_accessibility (hotel_data : List (String × JVal)) :
    Except String AmadeusHotelAccessibility :=
  let facilities := dictGetD hotel_data "facilities" (JVal.list [])
  if truthy facilities then
    match pyIter facilities with
    | Except.error e => Except.error e
    | Except.ok elems =>
      let facility_list := elems.map facilityEntryDesc
      let has_accessibility := facility_list.any (fun f =>
        accessibility_keywords.any (fun kw => strContains (pyStr f).toLower kw.toLower))
      Except.ok
        { wheelchair_accessible := has_accessibility
          accessible_room_available := has_accessibility
          facility_list := facility_list }
  else
    Except.ok
      { wheelchair_accessible := false
        accessible_room_available := false
        facility_list := [] }

/-- Source: `helpers.format_amadeus_response`, for a dict response body and
with `datetime.now().isoformat()` passed in as `now`. The source takes a
shallow copy of a dict argument before writing the two metadata fields, so
the caller's dict is unchanged: the first component is the caller's dict
content after the call, the second is the returned dict. -/
def format_amadeus_response (response_body : List (String × JVal)) (now : String) :
    List (String × JVal) × List (String × JVal) :=
  (response_body,
    dictSet (dictSet response_body "provider" (JVal.str "Amadeus GDS"))
      "search_timestamp" (JVal.str now))

/-- Outcome of a validation layer sitting in front of the Amadeus SDK:
either a short-circuited error result, or the call proceeds to the
underlying SDK client (exactly one SDK call is then performed). -/
inductive SdkStep where
  | error (msg : String)
  | sdkCall
deriving DecidableEq

/-- Python truthiness of an `Optional[int]` argument. -/
def truthyOptInt : Option Int → Bool
  | Option.none => false
  | some n => !(n == 0)

/-- Python truthiness of an `Optional[str]` argument. -/
def truthyOptStr : Option String → Bool
  | Option.none => false
  | some s => !s.isEmpty

namespace AmadeusClientWrapper

/-- Source: `clients.AmadeusClientWrapper.search_flights`, passenger-count
validation. `adults` defaults to 1 when absent; `children`/`infants` are
`params.get(..., 0) or 0`, collapsing an absent, `None` or `0` argument
to 0 (modelled by `Option.getD 0`). -/
def search_flights (adults? children? infants? : Option Int) : SdkStep :=
  let adults := adults?.getD 1
  let children := children?.getD 0
  let infants := infants?.getD 0
  if !(1 ≤ adults ∧ adults ≤ 9) then
    SdkStep.error "Adults must be between 1 and 9"
  else if children ≠ 0 ∧ infants ≠ 0 ∧ adults + children > 9 then
    SdkStep.error "Total seated travelers cannot exceed 9"
  else if infants ≠ 0 ∧ infants > adults then
    SdkStep.error "Infants cannot exceed adults"
  else
    SdkStep.sdkCall

/-- Source: `clients.AmadeusClientWrapper.search_hotel_offers`, guard clause.
`params.get("cityCode")` / `params.get("hotelIds")` give `None` when the
keyword is absent, so the arguments are arbitrary values here. -/
def search_hotel_offers (cityCode hotelIds : JVal) : SdkStep :=
  if !truthy cityCode ∧ !truthy hotelIds then
    SdkStep.error "Either cityCode or hotelIds must be provided"
  else
    SdkStep.sdkCall

end AmadeusClientWrapper

/-- Source: `server.search_flights_amadeus`, passenger-count validation.
`adults` is a required `int`; `children`/`infants` are `Optional[int]`
defaulting to `None`. Every guard in the source is conditioned on
`adults` being truthy (non-zero). -/
def search_flights_amadeus (adults : Int) (children infants : Option Int) : SdkStep :=
  if adults ≠ 0 ∧ !(1 ≤ adults ∧ adults ≤ 9) then
    SdkStep.error "Adults must be between 1 and 9"
  else if truthyOptInt children ∧ truthyOptInt infants ∧ adults ≠ 0 ∧
      adults + (children.getD 0) > 9 then
    SdkStep.error "Total number of seated travelers (adults + children) cannot exceed 9"
  else if truthyOptInt infants ∧ adults ≠ 0 ∧ (infants.getD 0) > adults then
    SdkStep.error "Number of infants cannot exceed number of adults"
  else
    SdkStep.sdkCall

/-- Source: `server.search_hotel_offers_amadeus`, guard clause over the
`Optional[str]` parameters `cityCode` and `hotelIds`. -/
def search_hotel_offers_amadeus (cityCode hotelIds : Option String) : SdkStep :=
  if !truthyOptStr cityCode ∧ !truthyOptStr hotelIds then
    SdkStep.error "Either cityCode or hotelIds must be provided"
  else
    SdkStep.sdkCall

/-- Parsed JSON payload of the ExchangeRate-API pair endpoint. -/
structure ExchangeApiData where
  result : String
  conversion_rate : Option ℚ
  error_type : Option String

/-- Outcome of the single HTTP GET performed by a currency conversion:
either a parsed payload, or a transport-level exception whose Python
`str(e)` text is carried along. -/
inductive ExchangeOutcome where
  | response (data : ExchangeApiData)
  | failure (exn : String)

/-- Result of a currency conversion call. -/
inductive ConvertResult where
  | error (msg : String)
  | ok (from_currency to_currency : String) (amount exchange_rate converted_amount : ℚ)
deriving DecidableEq

/-- Python `str.upper()` (ASCII), mapped over the character list. -/
def pyUpper (s : String) : String :=
  String.mk (s.toList.map Char.toUpper)

/-- Python `round` to an integer: round half to even. -/
def roundHalfEven (q : ℚ) : ℤ :=
  let f : ℤ := ⌊q⌋
  let r : ℚ := q - f
  if r < 1 / 2 then f
  else if 1 / 2 < r then f + 1
  else if f % 2 = 0 then f else f + 1

/-- Python `round(x, 2)`. -/
def round2 (q : ℚ) : ℚ :=
  (roundHalfEven (q * 100) : ℚ) / 100

/-- Request URL built by `clients.ExchangeRateClient.convert`: the API key is
embedded in the URL path. -/
def exchange_request_url (api_key from_currency to_currency : String) : String :=
  "https://v6.exchangerate-api.com/v6/" ++ api_key ++ "/pair/" ++
    pyUpper from_currency ++ "/" ++ pyUpper to_currency

namespace ExchangeRateClient

/-- Source: `clients.ExchangeRateClient.convert`. A missing API key
short-circuits; a transport failure is reported with the raw exception
text appended; a successful payload is validated (`result == "success"`,
`conversion_rate` present, with `data.get("error-type") or ...` falsy
fallback) and the conversion is `round(amount * rate, 2)` with both
currency codes uppercased. -/
def convert (api_key : Option String) (from_currency to_currency : String)
    (amount : ℚ) (outcome : ExchangeOutcome) : ConvertResult :=
  match api_key with
  | Option.none => ConvertResult.error "EXCHANGE_RATE_API_KEY environment variable not set"
  | some _ =>
    match outcome with
    | ExchangeOutcome.failure e =>
      ConvertResult.error ("Currency API request failed: " ++ e)
    | ExchangeOutcome.response data =>
      if data.result ≠ "success" then
        ConvertResult.error
          (match data.error_type with
           | some s => if s.isEmpty then "ExchangeRate-API error" else s
           | Option.none => "ExchangeRate-API error")
      else
        match data.conversion_rate with
        | Option.none => ConvertResult.error "Conversion rate not available"
        | some rate =>
          ConvertResult.ok (pyUpper from_currency) (pyUpper to_currency)
            amount rate (round2 (amount * rate))

end ExchangeRateClient

/-- Source: `server.convert_currency`. Same conversion logic as the client,
but a missing API key raises `ValueError` inside the `try` block and is
caught by the generic handler, and transport failures are reported with a
fixed message that deliberately omits the URL. -/
def convert_currency (api_key : Option String) (from_currency to_currency : String)
    (amount : ℚ) (outcome : ExchangeOutcome) : ConvertResult :=
  match api_key with
  | Option.none => ConvertResult.error "Currency conversion failed. Please try again."
  | some _ =>
    match outcome with
    | ExchangeOutcome.failure _ =>
      ConvertResult.error
        "Currency API request failed. Please check currency codes and try again."
    | ExchangeOutcome.response data =>
      if data.result ≠ "success" then
        ConvertResult.error
          (match data.error_type with
           | some s => if s.isEmpty then "ExchangeRate-API error" else s
           | Option.none => "ExchangeRate-API error")
      else
        match data.conversion_rate with
        | Option.none => ConvertResult.error "Conversion rate not available"
        | some rate =>
          ConvertResult.ok (pyUpper from_currency) (pyUpper to_currency)
            amount rate (round2 (amount * rate))

/-- Outcome of the single HTTP GET performed by a SerpAPI search. -/
inductive SerpOutcome where
  | ok (body : List (String × JVal))
  | failure (exn : String)

/-- Result of a SerpAPI request. -/
inductive SerpResult where
  | error (msg : String)
  | body (data : List (String × JVal))

namespace SerpAPIClient

/-- Source: `clients.SerpAPIClient._request`. A missing API key
short-circuits to an error result before any network request; transport
failures are wrapped into an error result. -/
def request (api_key : Option String) (outcome : SerpOutcome) : SerpResult :=
  match api_key with
  | Option.none => SerpResult.error "SERPAPI_KEY environment variable not set"
  | some _ =>
    match outcome with
    | SerpOutcome.ok body => SerpResult.body body
    | SerpOutcome.failure e => SerpResult.error ("SerpAPI request failed: " ++ e)

end SerpAPIClient

/-! Basic lemmas about the dict embedding. -/

theorem dictLookup_nil (k : String) : dictLookup [] k = Option.none := rfl

theorem dictLookup_cons (k0 : String) (v0 : JVal) (rest : List (String × JVal))
    (k : String) :
    dictLookup ((k0, v0) :: rest) k = if k0 = k then some v0 else dictLookup rest k := rfl

theorem dictLookup_cons_ne (k0 : String) (v0 : JVal) (rest : List (String × JVal))
    (k : String) (h : k0 ≠ k) : dictLookup ((k0, v0) :: rest) k = dictLookup rest k := by
  rw [dictLookup_cons, if_neg h]

theorem dictLookup_eq_none_of_not_mem_keys (d : List (String × JVal)) (k : String)
    (h : k ∉ d.map Prod.fst) : dictLookup d k = Option.none := by
  induction d with
  | nil => rfl
  | cons p rest ih =>
    obtain ⟨k0, v0⟩ := p
    simp only [List.map_cons, List.mem_cons] at h
    push_neg at h
    simp [dictLookup, Ne.symm h.1, ih h.2]

theorem dictLookup_mapSet_self (d : List (String × JVal)) (k : String) (v : JVal)
    (h : (dictLookup d k).isSome = true) :
    dictLookup (d.map (fun p => if p.1 = k then (k, v) else p)) k = some v := by
  induction d with
  | nil => simp [dictLookup] at h
  | cons p rest ih =>
    obtain ⟨k0, v0⟩ := p
    rw [List.map_cons]
    by_cases hk : k0 = k
    · subst hk
      rw [show ((if (k0, v0).1 = k0 then (k0, v) else (k0, v0))) = (k0, v) from if_pos rfl]
      rw [dictLookup_cons, if_pos rfl]
    · rw [dictLookup_cons, if_neg hk] at h
      rw [show ((if (k0, v0).1 = k then (k, v) else (k0, v0))) = (k0, v0) from if_neg hk]
      rw [dictLookup_cons, if_neg hk]
      exact ih h

theorem dictLookup_mapSet_ne (d : List (String × JVal)) (k : String) (v : JVal)
    (k' : String) (h : k' ≠ k) :
    dictLookup (d.map (fun p => if p.1 = k then (k, v) else p)) k' = dictLookup d k' := by
  induction d with
  | nil => rfl
  | cons p rest ih =>
    obtain ⟨k0, v0⟩ := p
    rw [List.map_cons]
    by_cases hk : k0 = k
    · subst hk
      rw [show ((if (k0, v0).1 = k0 then (k0, v) else (k0, v0))) = (k0, v) from if_pos rfl]
      rw [dictLookup_cons, if_neg (Ne.symm h), dictLookup_cons, if_neg (Ne.symm h)]
      exact ih
    · rw [show ((if (k0, v0).1 = k then (k, v) else (k0, v0))) = (k0, v0) from if_neg hk]
      rw [dictLookup_cons, dictLookup_cons]
      by_cases hk' : k0 = k'
      · rw [if_pos hk', if_pos hk']
      · rw [if_neg hk', if_neg hk']
        exact ih

theorem dictLookup_append_single_ne (d : List (String × JVal)) (k : String) (v : JVal)
    (k' : String) (h : k ≠ k') :
    dictLookup (d ++ [(k, v)]) k' = dictLookup d k' := by
  induction d with
  | nil => simp [dictLookup, h]
  | cons p rest ih =>
    obtain ⟨k0, v0⟩ := p
    by_cases hk : k0 = k'
    · subst hk
      simp [dictLookup]
    · simp [dictLookup, hk, ih]

theorem dictLookup_append_single_self (d : List (String × JVal)) (k : String) (v : JVal)
    (h : dictLookup d k = Option.none) :
    dictLookup (d ++ [(k, v)]) k = some v := by
  induction d with
  | nil => simp [dictLookup]
  | cons p rest ih =>
    obtain ⟨k0, v0⟩ := p
    by_cases hk : k0 = k
    · simp [dictLookup, hk] at h
    · simp only [dictLookup, hk, if_false] at h
      simp [dictLookup, hk, ih h]

theorem dictLookup_dictSet_self (d : List (String × JVal)) (k : String) (v : JVal) :
    dictLookup (dictSet d k v) k = some v := by
  unfold dictSet
  by_cases h : (dictLookup d k).isSome
  · simp only [h, if_true]
    exact dictLookup_mapSet_self d k v h
  · simp only [h, if_false]
    exact dictLookup_append_single_self d k v (by
      cases hl : dictLookup d k with
      | none => rfl
      | some w => simp [hl] at h)

theorem dictLookup_dictSet_ne (d : List (String × JVal)) (k : String) (v : JVal)
    (k' : String) (h : k' ≠ k) :
    dictLookup (dictSet d k v) k' = dictLookup d k' := by
  unfold dictSet
  by_cases hs : (dictLookup d k).isSome
  · simp only [hs, if_true]
    exact dictLookup_mapSet_ne d k v k' h
  · simp only [hs, if_false]
    exact dictLookup_append_single_ne d k v k' (Ne.symm h)

theorem mem_dictSet_of_ne (d : List (String × JVal)) (k : String) (v : JVal)
    (k0 : String) (v0 : JVal) (hm : (k0, v0) ∈ d) (hne : k0 ≠ k) :
    (k0, v0) ∈ dictSet d k v := by
  unfold dictSet
  by_cases hs : (dictLookup d k).isSome
  · simp only [hs, if_true]
    have hmap := List.mem_map_of_mem (fun p => if p.1 = k then (k, v) else p) hm
    simpa [hne] using hmap
  · simp only [hs, if_false]
    exact List.mem_append_left _ hm

/-! Characterization of `build_optional_params`. -/

/-- The per-field inclusion test of `build_optional_params`: fields named in
`none_check_fields` survive unless `None`, the rest survive when truthy. -/
def includeOptional (none_check_fields : List String) (k : String) (v : JVal) : Bool :=
  if k ∈ none_check_fields then !isNoneVal v else truthy v

theorem build_optional_params_cons (required : List (String × JVal)) (k0 : String)
    (v0 : JVal) (rest : List (String × JVal)) (ncf : List String) :
    build_optional_params required ((k0, v0) :: rest) ncf =
      build_optional_params
        (if includeOptional ncf k0 v0 then dictSet required k0 v0 else required) rest ncf := by
  simp only [build_optional_params, List.foldl_cons, includeOptional]
  by_cases hk : k0 ∈ ncf
  · simp only [hk, if_true]
    cases v0 <;> simp [isNoneVal]
  · simp [hk]

theorem dictLookup_build_optional_params (optional : List (String × JVal))
    (required : List (String × JVal)) (ncf : List String) (k : String)
    (hopt : (optional.map Prod.fst).Nodup) :
    dictLookup (build_optional_params required optional ncf) k =
      match dictLookup optional k with
      | some v => if includeOptional ncf k v then some v else dictLookup required k
      | Option.none => dictLookup required k := by
  induction optional generalizing required with
  | nil => simp [build_optional_params, dictLookup]
  | cons p rest ih =>
    obtain ⟨k0, v0⟩ := p
    rw [build_optional_params_cons]
    simp only [List.map_cons, List.nodup_cons] at hopt
    by_cases hk : k0 = k
    · subst hk
      have hrest : dictLookup rest k0 = Option.none :=
        dictLookup_eq_none_of_not_mem_keys rest k0 hopt.1
      rw [ih _ hopt.2, hrest]
      simp only [dictLookup, if_pos rfl]
      by_cases hinc : includeOptional ncf k0 v0
      · simp [hinc, dictLookup_dictSet_self]
      · simp [hinc]
    · rw [ih _ hopt.2, dictLookup_cons_ne k0 v0 rest k hk]
      have hreq : dictLookup (if includeOptional ncf k0 v0 then dictSet required k0 v0
          else required) k = dictLookup required k := by
        by_cases hinc : includeOptional ncf k0 v0
        · simp [hinc, dictLookup_dictSet_ne required k0 v0 k (Ne.symm hk)]
        · simp [hinc]
      rw [hreq]

theorem isNoneVal_eq_false_iff (v : JVal) : isNoneVal v = false ↔ v ≠ JVal.none := by
  cases v <;> simp [isNoneVal]

theorem pyEqInt_53_iff (v : JVal) : pyEqInt v 53 = true ↔ v = JVal.int 53 := by
  cases v with
  | none => simp [pyEqInt]
  | bool b => cases b <;> simp [pyEqInt]
  | int n => simp [pyEqInt]
  | str s => simp [pyEqInt]
  | list xs => simp [pyEqInt]
  | dict es => simp [pyEqInt]

/-- Claim C1, counterexample: when an optional key also occurs among the
required parameters, it stays present even though its optional value is
`None` and the key is listed in `none_check_fields`; the claimed
"present iff not `None`" equivalence fails on
`build_optional_params {"a": 1} {"a": None} {"a"}`. -/
theorem build_optional_params_claim_cex :
    ¬ (((dictLookup (build_optional_params [("a", JVal.int 1)] [("a", JVal.none)] ["a"])
          "a").isSome = true) ↔ ¬ (JVal.none = JVal.none)) := by
  intro hiff
  exact (hiff.mp rfl) rfl

/-- Claim C1 (amended): `build_optional_params` keeps every required key
present, and an optional key that is not itself a required key is present
iff its value is not `None` (for keys in `none_check_fields`) or truthy
(otherwise); an optional key that is also required is always present. -/
theorem build_optional_params_spec (required optional : List (String × JVal))
    (ncf : List String) (hopt : (optional.map Prod.fst).Nodup) :
    (∀ k, (dictLookup required k).isSome = true →
        (dictLookup (build_optional_params required optional ncf) k).isSome = true) ∧
    (∀ k v, dictLookup optional k = some v → dictLookup required k = Option.none →
        ((dictLookup (build_optional_params required optional ncf) k).isSome = true ↔
          (if k ∈ ncf then v ≠ JVal.none else truthy v = true))) := by
  constructor
  · intro k hk
    rw [dictLookup_build_optional_params optional required ncf k hopt]
    cases hcase : dictLookup optional k with
    | none => simpa using hk
    | some v =>
      by_cases hinc : includeOptional ncf k v
      · simp [hinc]
      · simpa [hinc] using hk
  · intro k v hv hr
    rw [dictLookup_build_optional_params optional required ncf k hopt, hv]
    by_cases hm : k ∈ ncf
    · by_cases hn : isNoneVal v
      · have hvn : v = JVal.none := by
          cases v <;> simp_all [isNoneVal]
        simp [includeOptional, isNoneVal, hm, hn, hr, hvn]
      · have hvn : v ≠ JVal.none := (isNoneVal_eq_false_iff v).mp (by simpa using hn)
        simp [includeOptional, hm, hn, hvn]
    · by_cases ht : truthy v
      · simp [includeOptional, hm, ht]
      · simp [includeOptional, hm, ht, hr]

/-- Claim C1, witness: with required `{"req": 7}`, optional
`{"x": 0, "y": 0}` and `none_check_fields = {"x"}`, the required key and
the none-checked zero survive while the truthiness-checked zero is
dropped. -/
theorem build_optional_params_spec_witness :
    ((dictLookup (build_optional_params [("req", JVal.int 7)]
        [("x", JVal.int 0), ("y", JVal.int 0)] ["x"]) "req").isSome = true) ∧
    ((dictLookup (build_optional_params [("req", JVal.int 7)]
        [("x", JVal.int 0), ("y", JVal.int 0)] ["x"]) "x").isSome = true) ∧
    ((dictLookup (build_optional_params [("req", JVal.int 7)]
        [("x", JVal.int 0), ("y", JVal.int 0)] ["x"]) "y").isSome = false) := by
  have H := build_optional_params_spec [("req", JVal.int 7)]
    [("x", JVal.int 0), ("y", JVal.int 0)] ["x"] (by simp)
  refine ⟨H.1 "req" rfl, (H.2 "x" (JVal.int 0) rfl rfl).mpr (by simp), ?_⟩
  have h3 := H.2 "y" (JVal.int 0) rfl rfl
  have h4 : ¬ ((dictLookup (build_optional_params [("req", JVal.int 7)]
      [("x", JVal.int 0), ("y", JVal.int 0)] ["x"]) "y").isSome = true) := by
    rw [h3]
    simp [truthy]
  simpa using h4

/-- Claim C2, counterexample: on `{"amenities": 5}` the list comprehension
iterates a non-iterable value and `extract_hotel_accessibility` raises
`TypeError` instead of returning, so "never raises for any input" fails. -/
theorem extract_hotel_accessibility_raises_cex :
    extract_hotel_accessibility [("amenities", JVal.int 5)] =
      Except.error "TypeError: object is not iterable" := rfl

/-- Claim C2 (amended): whenever the `amenities` value is absent or is a
list, `extract_hotel_accessibility` returns without raising (malformed
entries included), and its `wheelchair_accessible` flag is true iff some
amenity entry that is a dict containing the key `"id"` maps it to 53; a
non-iterable `amenities` value (e.g. an int) instead raises `TypeError`. -/
theorem extract_hotel_accessibility_spec (d : List (String × JVal)) (xs : List JVal)
    (h : dictGetD d "amenities" (JVal.list []) = JVal.list xs) :
    ∃ r, extract_hotel_accessibility d = Except.ok r ∧
      (r.wheelchair_accessible = true ↔
        ∃ a ∈ xs, ∃ es, a = JVal.dict es ∧ dictLookup es "id" = some (JVal.int 53)) := by
  have hrec : extract_hotel_accessibility d = Except.ok
      { wheelchair_accessible := ((xs.filter (fun a => isDictWithKey a "id")).map
          (fun a => dictKeyVal a "id")).any (fun v => pyEqInt v 53)
        accessible_room_available := ((xs.filter (fun a => isDictWithKey a "id")).map
          (fun a => dictKeyVal a "id")).any (fun v => pyEqInt v 53)
        wheelchair_amenity_id := 53
        amenities := JVal.list xs } := by
    simp only [extract_hotel_accessibility, h, pyIter]
  refine ⟨_, hrec, ?_⟩
  show (((xs.filter (fun a => isDictWithKey a "id")).map
      (fun a => dictKeyVal a "id")).any (fun v => pyEqInt v 53)) = true ↔ _
  simp only [List.any_eq_true, List.mem_map, List.mem_filter]
  constructor
  · rintro ⟨v, ⟨a, ⟨hmem, hwf⟩, rfl⟩, heq⟩
    cases a with
    | dict es =>
      cases hlook : dictLookup es "id" with
      | none => simp [isDictWithKey, hlook] at hwf
      | some w =>
        have hw : w = JVal.int 53 := by
          rw [← pyEqInt_53_iff]
          simpa [dictKeyVal, hlook] using heq
        exact ⟨JVal.dict es, hmem, es, rfl, by rw [hlook, hw]⟩
    | none => simp [isDictWithKey] at hwf
    | bool b => simp [isDictWithKey] at hwf
    | int n => simp [isDictWithKey] at hwf
    | str s => simp [isDictWithKey] at hwf
    | list ys => simp [isDictWithKey] at hwf
  · rintro ⟨a, hmem, es, rfl, hlook⟩
    exact ⟨JVal.int 53, ⟨JVal.dict es, ⟨hmem, by simp [isDictWithKey, hlook]⟩,
      by simp [dictKeyVal, hlook]⟩, by simp [pyEqInt]⟩

/-- Claim C2, witness: a property whose amenities list carries a dict with
`id = 53` is reported wheelchair-accessible. -/
theorem extract_hotel_accessibility_spec_witness :
    dictGetD [("amenities", JVal.list [JVal.dict [("id", JVal.int 53)]])] "amenities"
        (JVal.list []) = JVal.list [JVal.dict [("id", JVal.int 53)]] ∧
    (∃ r, extract_hotel_accessibility
        [("amenities", JVal.list [JVal.dict [("id", JVal.int 53)]])] = Except.ok r ∧
      (r.wheelchair_accessible = true ↔
        ∃ a ∈ [JVal.dict [("id", JVal.int 53)]], ∃ es, a = JVal.dict es ∧
          dictLookup es "id" = some (JVal.int 53))) :=
  ⟨rfl, extract_hotel_accessibility_spec
    [("amenities", JVal.list [JVal.dict [("id", JVal.int 53)]])]
    [JVal.dict [("id", JVal.int 53)]] rfl⟩

/-- Claim C3: for a `facilities` value that is absent or a list,
`extract_amadeus_hotel_accessibility` returns a record whose
`facility_list` is the derived description list (dict entries contribute
their `description` value, or their string form when that key is missing;
other entries contribute their string form), and whose
`wheelchair_accessible` flag is true iff the lowercased string form of some
entry of that list contains one of the accessibility keywords. -/
theorem extract_amadeus_hotel_accessibility_spec (d : List (String × JVal))
    (xs : List JVal) (h : dictGetD d "facilities" (JVal.list []) = JVal.list xs) :
    ∃ r, extract_amadeus_hotel_accessibility d = Except.ok r ∧
      r.facility_list = xs.map facilityEntryDesc ∧
      (r.wheelchair_accessible = true ↔
        ∃ f ∈ xs.map facilityEntryDesc, ∃ kw ∈ accessibility_keywords,
          strContains (pyStr f).toLower kw.toLower = true) := by
  cases xs with
  | nil =>
    have hrec : extract_amadeus_hotel_accessibility d = Except.ok
        { wheelchair_accessible := false
          accessible_room_available := false
          facility_list := [] } := by
      simp [extract_amadeus_hotel_accessibility, h, truthy]
    refine ⟨_, hrec, rfl, ?_⟩
    simp
  | cons a as =>
    have hrec : extract_amadeus_hotel_accessibility d = Except.ok
        { wheelchair_accessible := ((a :: as).map facilityEntryDesc).any (fun f =>
            accessibility_keywords.any (fun kw => strContains (pyStr f).toLower kw.toLower))
          accessible_room_available := ((a :: as).map facilityEntryDesc).any (fun f =>
            accessibility_keywords.any (fun kw => strContains (pyStr f).toLower kw.toLower))
          facility_list := (a :: as).map facilityEntryDesc } := by
      simp [extract_amadeus_hotel_accessibility, h, truthy, pyIter]
    refine ⟨_, hrec, rfl, ?_⟩
    show (((a :: as).map facilityEntryDesc).any (fun f =>
        accessibility_keywords.any (fun kw => strContains (pyStr f).toLower kw.toLower)))
        = true ↔ _
    simp only [List.any_eq_true]

/-- Claim C3, witness: a facility list with a "Wheelchair accessible rooms"
description makes the extractor return a record flagged accessible. -/
theorem extract_amadeus_hotel_accessibility_spec_witness :
    dictGetD [("facilities", JVal.list [JVal.str "Wheelchair accessible rooms"])]
        "facilities" (JVal.list []) = JVal.list [JVal.str "Wheelchair accessible rooms"] ∧
    (∃ r, extract_amadeus_hotel_accessibility
        [("facilities", JVal.list [JVal.str "Wheelchair accessible rooms"])] = Except.ok r ∧
      r.facility_list = [JVal.str "Wheelchair accessible rooms"].map facilityEntryDesc ∧
      (r.wheelchair_accessible = true ↔
        ∃ f ∈ [JVal.str "Wheelchair accessible rooms"].map facilityEntryDesc,
          ∃ kw ∈ accessibility_keywords, strContains (pyStr f).toLower kw.toLower = true)) :=
  ⟨rfl, extract_amadeus_hotel_accessibility_spec
    [("facilities", JVal.list [JVal.str "Wheelchair accessible rooms"])]
    [JVal.str "Wheelchair accessible rooms"] rfl⟩

/-- Claim C9: both hotel accessibility extractors always return records whose
`accessible_room_available` flag equals their `wheelchair_accessible`
flag. -/
theorem accessibility_flags_agree :
    (∀ d r, extract_hotel_accessibility d = Except.ok r →
        r.accessible_room_available = r.wheelchair_accessible) ∧
    (∀ d r, extract_amadeus_hotel_accessibility d = Except.ok r →
        r.accessible_room_available = r.wheelchair_accessible) := by
  constructor
  · intro d r h
    simp only [extract_hotel_accessibility] at h
    split at h
    · exact absurd h (by simp)
    · injection h with h2
      rw [← h2]
  · intro d r h
    simp only [extract_amadeus_hotel_accessibility] at h
    split at h
    · split at h
      · exact absurd h (by simp)
      · injection h with h2
        rw [← h2]
    · injection h with h2
      rw [← h2]

/-- Claim C9, witness: on an empty property both extractors return records,
and the two flags coincide on them. -/
theorem accessibility_flags_agree_witness :
    (∃ r, extract_hotel_accessibility [] = Except.ok r ∧
        r.accessible_room_available = r.wheelchair_accessible) ∧
    (∃ r, extract_amadeus_hotel_accessibility [] = Except.ok r ∧
        r.accessible_room_available = r.wheelchair_accessible) :=
  ⟨⟨_, rfl, accessibility_flags_agree.1 [] _ rfl⟩,
   ⟨_, rfl, accessibility_flags_agree.2 [] _ rfl⟩⟩

/-- Claim C8, counterexample: `format_amadeus_response` overwrites an
existing `provider` entry, so the output does not contain every key-value
pair of the input. -/
theorem format_amadeus_response_claim_cex :
    ("provider", JVal.str "X") ∉ (format_amadeus_response [("provider", JVal.str "X")] "T").2 := by
  intro hm
  have hres : (format_amadeus_response [("provider", JVal.str "X")] "T").2 =
      [("provider", JVal.str "Amadeus GDS"), ("search_timestamp", JVal.str "T")] := rfl
  rw [hres] at hm
  simp only [List.mem_cons, List.not_mem_nil, or_false, Prod.mk.injEq] at hm
  rcases hm with ⟨-, h⟩ | ⟨h, -⟩
  · exact absurd (JVal.str.inj h) (by decide)
  · exact absurd h (by decide)

/-- Claim C8 (amended): for a dict response body, `format_amadeus_response`
leaves the caller's dict unchanged, preserves every input pair whose key is
neither `provider` nor `search_timestamp`, and sets `provider` and
`search_timestamp` in the returned dict (overwriting existing values). -/
theorem format_amadeus_response_spec (body : List (String × JVal)) (now : String) :
    (format_amadeus_response body now).1 = body ∧
    (∀ k v, (k, v) ∈ body → k ≠ "provider" → k ≠ "search_timestamp" →
        (k, v) ∈ (format_amadeus_response body now).2) ∧
    dictLookup (format_amadeus_response body now).2 "provider" =
      some (JVal.str "Amadeus GDS") ∧
    dictLookup (format_amadeus_response body now).2 "search_timestamp" =
      some (JVal.str now) := by
  refine ⟨rfl, ?_, ?_, ?_⟩
  · intro k v hm h1 h2
    exact mem_dictSet_of_ne _ _ _ _ _ (mem_dictSet_of_ne _ _ _ _ _ hm h1) h2
  · rw [show (format_amadeus_response body now).2 =
        dictSet (dictSet body "provider" (JVal.str "Amadeus GDS")) "search_timestamp"
          (JVal.str now) from rfl]
    rw [dictLookup_dictSet_ne _ _ _ _ (by decide)]
    exact dictLookup_dictSet_self _ _ _
  · exact dictLookup_dictSet_self _ _ _

/-- Claim C8, witness: a `data` entry survives formatting and the provider
field is stamped. -/
theorem format_amadeus_response_spec_witness :
    ("data", JVal.int 1) ∈ (format_amadeus_response [("data", JVal.int 1)] "T").2 ∧
    dictLookup (format_amadeus_response [("data", JVal.int 1)] "T").2 "provider" =
      some (JVal.str "Amadeus GDS") :=
  ⟨(format_amadeus_response_spec [("data", JVal.int 1)] "T").2.1 "data" (JVal.int 1)
      (by simp) (by decide) (by decide),
   (format_amadeus_response_spec [("data", JVal.int 1)] "T").2.2.1⟩

/-- Claim C4, failing evaluation: the server-side tool guards every check
with `if adults and ...`, so `adults = 0` — which is outside `[1, 9]` —
skips validation and proceeds to the SDK call, while the client wrapper
rejects it; `adults = 10` is rejected by both layers as the claim says. -/
theorem search_flights_adults_zero_gap :
    search_flights_amadeus 0 Option.none Option.none = SdkStep.sdkCall ∧
    ¬ (1 ≤ (0 : Int) ∧ (0 : Int) ≤ 9) ∧
    AmadeusClientWrapper.search_flights (some 0) Option.none Option.none =
      SdkStep.error "Adults must be between 1 and 9" ∧
    search_flights_amadeus 10 Option.none Option.none =
      SdkStep.error "Adults must be between 1 and 9" ∧
    AmadeusClientWrapper.search_flights (some 10) Option.none Option.none =
      SdkStep.error "Adults must be between 1 and 9" := by
  refine ⟨?_, by omega, ?_, ?_, ?_⟩ <;> decide

/-- Claim C10: when both `cityCode` and `hotelIds` are absent or falsy, the
hotel-offers search short-circuits to the fixed error result in both the
client wrapper and the server tool, performing no SDK call. -/
theorem search_hotel_offers_guard_spec (c h : JVal) (c2 h2 : Option String)
    (hc : truthy c = false) (hh : truthy h = false)
    (hc2 : truthyOptStr c2 = false) (hh2 : truthyOptStr h2 = false) :
    AmadeusClientWrapper.search_hotel_offers c h =
      SdkStep.error "Either cityCode or hotelIds must be provided" ∧
    search_hotel_offers_amadeus c2 h2 =
      SdkStep.error "Either cityCode or hotelIds must be provided" := by
  constructor
  · simp [AmadeusClientWrapper.search_hotel_offers, hc, hh]
  · simp [search_hotel_offers_amadeus, hc2, hh2]

/-- Claim C10, witness: with both parameters omitted (`None`), both layers
return the guard error. -/
theorem search_hotel_offers_guard_spec_witness :
    AmadeusClientWrapper.search_hotel_offers JVal.none JVal.none =
      SdkStep.error "Either cityCode or hotelIds must be provided" ∧
    search_hotel_offers_amadeus Option.none Option.none =
      SdkStep.error "Either cityCode or hotelIds must be provided" :=
  search_hotel_offers_guard_spec JVal.none JVal.none Option.none Option.none
    rfl rfl rfl rfl

/-- Claim C5: on a successful payload, both the currency client and the
server tool return `round(amount * conversion_rate, 2)` as the converted
amount, with both currency codes uppercased, for any positive amount and
rate. -/
theorem convert_currency_rounds (api_key from_currency to_currency : String)
    (amount rate : ℚ) (data : ExchangeApiData) (_hamt : 0 < amount) (_hrate : 0 < rate)
    (hres : data.result = "success") (hconv : data.conversion_rate = some rate) :
    ExchangeRateClient.convert (some api_key) from_currency to_currency amount
        (ExchangeOutcome.response data) =
      ConvertResult.ok (pyUpper from_currency) (pyUpper to_currency) amount rate
        (round2 (amount * rate)) ∧
    convert_currency (some api_key) from_currency to_currency amount
        (ExchangeOutcome.response data) =
      ConvertResult.ok (pyUpper from_currency) (pyUpper to_currency) amount rate
        (round2 (amount * rate)) := by
  constructor
  · simp [ExchangeRateClient.convert, hres, hconv]
  · simp [convert_currency, hres, hconv]

/-- Claim C5, witness: converting 100.0 from "usd" to "eur" at rate 0.92
yields 92.0 with codes uppercased to "USD"/"EUR". -/
theorem convert_currency_rounds_witness :
    (0 : ℚ) < 100 ∧ (0 : ℚ) < 92 / 100 ∧
    ExchangeRateClient.convert (some "key") "usd" "eur" 100
        (ExchangeOutcome.response ⟨"success", some (92 / 100), Option.none⟩) =
      ConvertResult.ok "USD" "EUR" 100 (92 / 100) 92 := by
  refine ⟨by norm_num, by norm_num, ?_⟩
  have h := (convert_currency_rounds "key" "usd" "eur" 100 (92 / 100)
    ⟨"success", some (92 / 100), Option.none⟩ (by norm_num) (by norm_num) rfl rfl).1
  rw [h]
  have hupf : pyUpper "usd" = "USD" := rfl
  have hupt : pyUpper "eur" = "EUR" := rfl
  have hr2 : round2 ((100 : ℚ) * (92 / 100)) = 92 := by
    have h92 : (100 : ℚ) * (92 / 100) = 92 := by norm_num
    rw [h92]
    simp only [round2, roundHalfEven]
    norm_num
  rw [hupf, hupt, hr2]

set_option maxRecDepth 16384 in
/-- Claim C6, failing evaluation: on a transport failure whose Python
exception text quotes the request URL (as `requests` errors do), the
currency client returns an error message that still contains the API key
as a substring — nothing redacts the path-embedded key. -/
theorem convert_error_leaks_api_key :
    ExchangeRateClient.convert (some "SECRET123") "USD" "EUR" 100
        (ExchangeOutcome.failure ("404 Client Error: Not Found for url: " ++
          exchange_request_url "SECRET123" "USD" "EUR")) =
      ConvertResult.error
        "Currency API request failed: 404 Client Error: Not Found for url: https://v6.exchangerate-api.com/v6/SECRET123/pair/USD/EUR" ∧
    strContains
        "Currency API request failed: 404 Client Error: Not Found for url: https://v6.exchangerate-api.com/v6/SECRET123/pair/USD/EUR"
        "SECRET123" = true := by
  constructor
  · rfl
  · decide


/-- Claim C7, counterexample: with the API key unset, the clients return the
message "... environment variable not set", not the claimed
"... environment variable is required". -/
theorem missing_key_message_cex :
    SerpAPIClient.request Option.none (SerpOutcome.failure "timeout") ≠
      SerpResult.error "SERPAPI_KEY environment variable is required" ∧
    ExchangeRateClient.convert Option.none "USD" "EUR" 1
        (ExchangeOutcome.failure "timeout") ≠
      ConvertResult.error "EXCHANGE_RATE_API_KEY environment variable is required" := by
  constructor
  · intro h
    injection h with h2
    exact absurd h2 (by decide)
  · intro h
    injection h with h2
    exact absurd h2 (by decide)

/-- Claim C7 (amended): with the API key environment variable absent, the
SerpAPI client and the currency client short-circuit to the error result
`\x7b"error": "<VAR> environment variable not set"\x7d`, and the outcome of
the (never performed) network request cannot influence the result. -/
theorem missing_key_short_circuits (o o2 : SerpOutcome) (f t : String) (a : ℚ)
    (e e2 : ExchangeOutcome) :
    SerpAPIClient.request Option.none o =
      SerpResult.error "SERPAPI_KEY environment variable not set" ∧
    SerpAPIClient.request Option.none o = SerpAPIClient.request Option.none o2 ∧
    ExchangeRateClient.convert Option.none f t a e =
      ConvertResult.error "EXCHANGE_RATE_API_KEY environment variable not set" ∧
    ExchangeRateClient.convert Option.none f t a e =
      ExchangeRateClient.convert Option.none f t a e2 :=
  ⟨rfl, rfl, rfl, rfl⟩

/-- Claim C7, witness: the amended short-circuit behaviour at a concrete
transport outcome and conversion request. -/
theorem missing_key_short_circuits_witness :
    SerpAPIClient.request Option.none (SerpOutcome.failure "timeout") =
      SerpResult.error "SERPAPI_KEY environment variable not set" ∧
    ExchangeRateClient.convert Option.none "usd" "eur" 1
        (ExchangeOutcome.failure "timeout") =
      ConvertResult.error "EXCHANGE_RATE_API_KEY environment variable not set" :=
  ⟨(missing_key_short_circuits (SerpOutcome.failure "timeout")
      (SerpOutcome.failure "timeout") "usd" "eur" 1
      (ExchangeOutcome.failure "timeout") (ExchangeOutcome.failure "timeout")).1,
   (missing_key_short_circuits (SerpOutcome.failure "timeout")
      (SerpOutcome.failure "timeout") "usd" "eur" 1
      (ExchangeOutcome.failure "timeout") (ExchangeOutcome.failure "timeout")).2.2.1⟩

end TravelAssistant
